import Mathlib

/-!
Verification of the filtering-and-aggregation pipeline of the
Sales_Data_Dashboard application (src/app.py).

The app loads a CSV into a dataframe, classifies columns into
categorical (object/bool dtypes) and numeric (int/float dtypes),
applies one categorical membership filter and one numeric
lower-bound filter, and renders charts and conditional metrics.

Floating-point columns are modelled as exact rationals; missing
values (pandas NaN) are a distinguished cell.  The CSV reader models
pandas read_csv on quote-free comma-delimited text: blank lines are
skipped, the first line is the header, data rows wider than the
expected width (the maximum of the header width and the first data
row's width) raise a parser error, narrower rows are padded with
missing values, and when every data row is wider than the header the
leftmost surplus column becomes the row index.
-/

namespace SalesDash

set_option maxRecDepth 4000

/-- A dataframe cell: integer, float (modelled as an exact rational),
string, boolean, or missing (NaN). -/
inductive Cell where
  | int (i : Int)
  | rat (q : ℚ)
  | str (s : String)
  | bool (b : Bool)
  | nan
deriving DecidableEq, Repr

/-- Pandas column dtypes that read_csv can infer. -/
inductive Dtype where
  | int64
  | float64
  | boolDt
  | object
deriving DecidableEq, Repr

/-- Split a character list on a separator character (structural, so it
reduces in the kernel). -/
def splitCharsAux (sep : Char) : List Char → List Char → List (List Char)
  | [], acc => [acc.reverse]
  | c :: cs, acc =>
    if c = sep then acc.reverse :: splitCharsAux sep cs []
    else splitCharsAux sep cs (c :: acc)

def splitChars (sep : Char) (cs : List Char) : List (List Char) :=
  splitCharsAux sep cs []

def strOf (cs : List Char) : String := String.mk cs

/-- Non-blank physical lines of the input (pandas skip_blank_lines). -/
def nonBlankLines (input : String) : List (List Char) :=
  (splitChars '\n' input.data).filter (fun l => !l.isEmpty)

/-- Comma-separated fields of one line. -/
def fieldsOf (line : List Char) : List (List Char) := splitChars ',' line

def digitsValAux : List Char → Nat → Option Nat
  | [], acc => some acc
  | c :: cs, acc =>
    if c.isDigit then digitsValAux cs (acc * 10 + (c.toNat - 48)) else none

/-- Value of a non-empty all-digit character list. -/
def digitsVal? (cs : List Char) : Option Nat :=
  if cs.isEmpty then none else digitsValAux cs 0

/-- Integer literal: optional sign followed by digits. -/
def parseIntChars? (cs : List Char) : Option Int :=
  match cs with
  | '-' :: rest => (digitsVal? rest).map (fun n => -(n : Int))
  | '+' :: rest => (digitsVal? rest).map (fun n => (n : Int))
  | _ => (digitsVal? cs).map (fun n => (n : Int))

def parseUnsignedRat? (cs : List Char) : Option ℚ :=
  match splitChars '.' cs with
  | [ip] => (digitsVal? ip).map (fun n => (n : ℚ))
  | [ip, fp] =>
    match digitsVal? ip, digitsVal? fp with
    | some n, some f => some ((n : ℚ) + (f : ℚ) / (10 : ℚ) ^ fp.length)
    | _, _ => none
  | _ => none

/-- Decimal literal: optional sign, digits, optional fractional part. -/
def parseRatChars? (cs : List Char) : Option ℚ :=
  match cs with
  | '-' :: rest => (parseUnsignedRat? rest).map (fun q => -q)
  | '+' :: rest => parseUnsignedRat? rest
  | _ => parseUnsignedRat? cs

/-- Recognized boolean vocabulary of the pandas parser. -/
def isBoolLit (cs : List Char) : Bool :=
  strOf cs = "True" || strOf cs = "False" || strOf cs = "TRUE" ||
    strOf cs = "FALSE" || strOf cs = "true" || strOf cs = "false"

def boolLitVal (cs : List Char) : Bool :=
  strOf cs = "True" || strOf cs = "TRUE" || strOf cs = "true"

/-- Per-column dtype inference over the raw field strings: int64 if all
fields are integer literals, float64 if all fields are numeric or
missing, bool if all fields are boolean literals, else object. -/
def inferDtype (raw : List (List Char)) : Dtype :=
  if raw.isEmpty then .object
  else if raw.all (fun f => (parseIntChars? f).isSome) then .int64
  else if raw.all (fun f => f.isEmpty || (parseRatChars? f).isSome) then .float64
  else if raw.all (fun f => isBoolLit f) then .boolDt
  else .object

/-- Convert one raw field to a cell, given the column's inferred dtype.
Empty fields are missing values. -/
def parseCell (dt : Dtype) (f : List Char) : Cell :=
  match dt with
  | .int64 =>
    match parseIntChars? f with
    | some i => .int i
    | none => .nan
  | .float64 =>
    if f.isEmpty then .nan
    else
      match parseRatChars? f with
      | some q => .rat q
      | none => .nan
  | .boolDt => .bool (boolLitVal f)
  | .object => if f.isEmpty then .nan else .str (strOf f)

/-- One dataframe row: its index label and its field cells. -/
structure Row where
  idx : Cell
  fields : List Cell
deriving DecidableEq, Repr

/-- A dataframe: named, dtyped columns and a list of rows. -/
structure DataFrame where
  cols : List (String × Dtype)
  rows : List Row
deriving DecidableEq, Repr

def DataFrame.empty : DataFrame := ⟨[], []⟩

/-- Pad a field list on the right with empty (missing) fields. -/
def padTo (n : Nat) (l : List (List Char)) : List (List Char) :=
  l ++ List.replicate (n - l.length) []

/-- Raw strings of data column j across all padded rows. -/
def colRaw (body : List (List (List Char))) (j : Nat) : List (List Char) :=
  body.map (fun r => r.getD j [])

/-- Model of pandas read_csv on quote-free comma-delimited text.
Fails when the input has no lines, or when a data row has more fields
than the expected width (max of header width and first data row's
width).  When every data row has more fields than the header, the
surplus leftmost column becomes the index (pandas implicit index);
otherwise the index is the default integer range. -/
def parseCSV (input : String) : Except String DataFrame :=
  match nonBlankLines input with
  | [] => .error "EmptyDataError: no columns to parse from file"
  | headerLine :: dataLines =>
    let hdr := fieldsOf headerLine
    let nH := hdr.length
    match dataLines with
    | [] => .ok ⟨hdr.map (fun h => (strOf h, Dtype.object)), []⟩
    | d0 :: _ =>
      let w0 := (fieldsOf d0).length
      let expected := max nH w0
      if dataLines.any (fun l => expected < (fieldsOf l).length) then
        .error "ParserError: a row has more fields than expected"
      else
        let nIdx := w0 - nH
        let padded := dataLines.map (fun l => padTo expected (fieldsOf l))
        let body := padded.map (fun r => r.drop nIdx)
        let dtypes := (List.range nH).map (fun j => inferDtype (colRaw body j))
        let idxCells :=
          if nIdx = 0 then (List.range padded.length).map (fun i => Cell.int i)
          else
            let idxRaw := padded.map (fun r => r.getD 0 [])
            idxRaw.map (parseCell (inferDtype idxRaw))
        let rowsOut := (idxCells.zip body).map
          (fun p => Row.mk p.1 ((dtypes.zip p.2).map (fun q => parseCell q.1 q.2)))
        .ok ⟨(hdr.zip dtypes).map (fun p => (strOf p.1, p.2)), rowsOut⟩

/-- Sample dataset 1 of app.py (SALES_DATA_CSV, lines 10-22). -/
def SALES_DATA_CSV : String :=
"
Product_ID,Product_Name,Category,Price,Units_Sold,Region
1,Laptop,Electronics,1200.00,50,North
2,Headphones,Accessories,99.99,150,South
3,Monitor,Electronics,350.50,75,North
4,Keyboard,Accessories,75.00,200,West
5,Webcam,Electronics,45.99,120,East
6,Desk Lamp,Home,25.00,300,South
7,Mouse,Accessories,15.99,500,West
8,Coffee Maker,Home,150.00,60,North
9,Speaker,Electronics,400.00,90,East
10,Book Stand,Home,12.50,450,South
"

/-- Sample dataset 2 of app.py (TEAM_DATA_CSV, lines 25-35). -/
def TEAM_DATA_CSV : String :=
"
Employee_ID,Full_Name,Department,Years_of_Service,Performance_Score,Review_Rating
T101,Smith, Alex,Engineering,5,92,Excellent
T203,Chen, Li,Product,2,85,Good
T305,Garcia, Maria,Design,8,98,Excellent
T401,Johnson, Ben,Engineering,1,79,Average
T504,Williams, Sam,Engineering,12,88,Good
T607,Patel, Kiran,Product,4,74,Average
T702,Davis, Nicole,Design,7,95,Excellent
T806,Brown, Tom,Engineering,3,82,Good
"

/-- The dataframe loaded from the products sample (app.py line 64). -/
def salesDF : DataFrame := ((parseCSV SALES_DATA_CSV).toOption).getD DataFrame.empty

/-- The dataframe loaded from the employees sample (app.py line 64). -/
def teamDF : DataFrame := ((parseCSV TEAM_DATA_CSV).toOption).getD DataFrame.empty

/-- Numeric value of a cell, when it has one. -/
def Cell.num? : Cell → Option ℚ
  | .int i => some (i : ℚ)
  | .rat q => some q
  | _ => none

/-- Equality as used by pandas isin and groupby: numbers compare by
value across int/float dtypes, and missing matches missing. -/
def beqCell : Cell → Cell → Bool
  | .str s, .str t => s == t
  | .bool a, .bool b => a == b
  | .nan, .nan => true
  | a, b =>
    match a.num?, b.num? with
    | some x, some y => decide (x = y)
    | _, _ => false

/-- Membership of a cell in a list of cells, via beqCell. -/
def elemB (v : Cell) (l : List Cell) : Bool := l.any (fun w => beqCell w v)

/-- The comparison df[col] >= bound: true only when both sides are
numeric (missing values never satisfy it). -/
def cellGe (a b : Cell) : Bool :=
  match a.num?, b.num? with
  | some x, some y => decide (y ≤ x)
  | _, _ => false

/-- Distinct values in first-seen order (pandas Series.unique). -/
def dedupAux (seen : List Cell) : List Cell → List Cell
  | [] => []
  | c :: cs =>
    if elemB c seen then dedupAux seen cs else c :: dedupAux (c :: seen) cs

def cellDistinct (l : List Cell) : List Cell := dedupAux [] l

/-- Index of a named column. -/
def colIdx? (cols : List (String × Dtype)) (c : String) : Option Nat :=
  cols.findIdx? (fun p => p.1 == c)

/-- The cell of row r in column c (missing when the column is absent). -/
def getCell (df : DataFrame) (r : Row) (c : String) : Cell :=
  match colIdx? df.cols c with
  | some j => r.fields.getD j Cell.nan
  | none => Cell.nan

/-- The values of column c in row order. -/
def colValues (df : DataFrame) (c : String) : List Cell :=
  df.rows.map (fun r => getCell df r c)

/-- df[cat].unique() of app.py line 108. -/
def uniqueVals (df : DataFrame) (c : String) : List Cell :=
  cellDistinct (colValues df c)

def Dtype.isCategorical : Dtype → Bool
  | .object => true
  | .boolDt => true
  | _ => false

def Dtype.isNumericDt : Dtype → Bool
  | .int64 => true
  | .float64 => true
  | _ => false

/-- select_dtypes(include=['object', 'bool']) of app.py line 101. -/
def categoricalCols (df : DataFrame) : List String :=
  (df.cols.filter (fun p => p.2.isCategorical)).map Prod.fst

/-- select_dtypes(include=['number']) of app.py line 119. -/
def numericCols (df : DataFrame) : List String :=
  (df.cols.filter (fun p => p.2.isNumericDt)).map Prod.fst

/-- df[df[cat_to_filter].isin(selected_values)] of app.py line 114. -/
def dfFilteredCategory (df : DataFrame) (catSel : String) (allowed : List Cell) :
    DataFrame :=
  ⟨df.cols, df.rows.filter (fun r => elemB (getCell df r catSel) allowed)⟩

/-- df_filtered_category[df_filtered_category[num] >= min_range] of
app.py line 137. -/
def dfFinalNumeric (df2 : DataFrame) (numSel : String) (minRange : Cell) :
    DataFrame :=
  ⟨df2.cols, df2.rows.filter (fun r => cellGe (getCell df2 r numSel) minRange)⟩

/-- Numeric cells of a column. -/
def ratsOf (df : DataFrame) (c : String) : List ℚ :=
  (colValues df c).filterMap Cell.num?

def minRat? : List ℚ → Option ℚ
  | [] => none
  | q :: qs =>
    match minRat? qs with
    | none => some q
    | some m => some (min q m)

def maxRat? : List ℚ → Option ℚ
  | [] => none
  | q :: qs =>
    match maxRat? qs with
    | none => some q
    | some m => some (max q m)

/-- df[col].min() — missing when the column has no numeric values. -/
def colMinCell (df : DataFrame) (c : String) : Cell :=
  match minRat? (ratsOf df c) with
  | some q => .rat q
  | none => .nan

/-- df[col].max(). -/
def colMaxCell (df : DataFrame) (c : String) : Cell :=
  match maxRat? (ratsOf df c) with
  | some q => .rat q
  | none => .nan

/-- The slider bounds of app.py lines 127-133, computed over the
categorical-filtered table df_final = df_filtered_category.copy(). -/
def sliderBounds (dfc : DataFrame) (numSel : String) : Cell × Cell :=
  (colMinCell dfc numSel, colMaxCell dfc numSel)

/-- The slider's default value (app.py line 134): the column minimum. -/
def sliderDefault (dfc : DataFrame) (numSel : String) : Cell :=
  (sliderBounds dfc numSel).1

/-- Stage 1 of the filter engine (app.py lines 98-114): the categorical
membership filter, skipped when no categorical column exists. -/
def dfCatStage (df : DataFrame) (catSel : String) (allowed : List Cell) :
    DataFrame :=
  if categoricalCols df = [] then df else dfFilteredCategory df catSel allowed

/-- Stage 2 of the filter engine (app.py lines 118-137): the numeric
lower-bound filter, skipped when no numeric column exists. -/
def dfNumericStage (dfc : DataFrame) (numSel : String) (minRange : Cell) :
    DataFrame :=
  if numericCols dfc = [] then dfc else dfFinalNumeric dfc numSel minRange

/-- The two-stage filter engine of app.py lines 98-137: the categorical
membership filter runs first, then the numeric lower-bound filter. -/
def runFilters (df : DataFrame) (catSel : String) (allowed : List Cell)
    (numSel : String) (minRange : Cell) : DataFrame :=
  dfNumericStage (dfCatStage df catSel allowed) numSel minRange

/-- Total order used to sort cells (pandas groupby sorts group keys;
columns are homogeneous, mixed kinds are ranked). -/
def cellRank : Cell → Nat
  | .nan => 0
  | .bool _ => 1
  | .int _ => 2
  | .rat _ => 2
  | .str _ => 3

def charListLe : List Char → List Char → Bool
  | [], _ => true
  | _ :: _, [] => false
  | a :: as, b :: bs => if a = b then charListLe as bs else decide (a < b)

def strLe (s t : String) : Bool := charListLe s.data t.data

def cellLeB (a b : Cell) : Bool :=
  match a.num?, b.num? with
  | some x, some y => decide (x ≤ y)
  | _, _ =>
    match a, b with
    | .str s, .str t => strLe s t
    | .bool x, .bool y => !x || y
    | _, _ => decide (cellRank a ≤ cellRank b)

def cellLeR (a b : Cell) : Prop := cellLeB a b = true

instance : DecidableRel cellLeR := fun a b => by
  unfold cellLeR
  exact inferInstance

def cellsSortAsc (l : List Cell) : List Cell := List.insertionSort cellLeR l

/-- Group keys of df.groupby(x): distinct non-missing values of column
x, sorted ascending. -/
def groupKeys (df : DataFrame) (x : String) : List Cell :=
  cellsSortAsc (cellDistinct ((colValues df x).filter (fun c => !(beqCell c Cell.nan))))

/-- Sum of column y over the rows whose x-value equals k. -/
def groupSumVal (df : DataFrame) (x y : String) (k : Cell) : ℚ :=
  ((df.rows.filter (fun r => beqCell (getCell df r x) k)).map
    (fun r => ((getCell df r y).num?).getD 0)).sum

/-- df.groupby(x)[y].sum() of app.py lines 188 and 213. -/
def groupSum (df : DataFrame) (x y : String) : List (Cell × ℚ) :=
  (groupKeys df x).map (fun k => (k, groupSumVal df x y k))

/-- df[y].value_counts().sort_index() of app.py line 205. -/
def valueCounts (df : DataFrame) (y : String) : List (Cell × Nat) :=
  (groupKeys df y).map
    (fun k => (k, ((colValues df y).filter (fun c => beqCell c k)).length))

/-- Descending order on groups by their percentage value. -/
def pairGe (a b : Cell × ℚ) : Prop := b.2 ≤ a.2

instance : DecidableRel pairGe := fun a b => by
  unfold pairGe
  exact inferInstance

instance : IsTotal (Cell × ℚ) pairGe := ⟨fun a b => le_total b.2 a.2⟩

instance : IsTrans (Cell × ℚ) pairGe := ⟨fun _ _ _ h1 h2 => le_trans h2 h1⟩

/-- (composition_data / total_sum) * 100 of app.py line 217. -/
def compositionPercents (df : DataFrame) (x y : String) : List (Cell × ℚ) :=
  (groupSum df x y).map
    (fun p => (p.1, p.2 / ((groupSum df x y).map Prod.snd).sum * 100))

/-- composition_data.sort_values(ascending=False).head(3) of line 218. -/
def topThree (ps : List (Cell × ℚ)) : List (Cell × ℚ) :=
  (List.insertionSort pairGe ps).take 3

/-- The pie-chart branch of app.py lines 210-229: when the grand total
is positive, the percentage series and its top three groups; otherwise
no composition (the warning branch). -/
def pieResult (df : DataFrame) (x y : String) :
    Option (List (Cell × ℚ) × List (Cell × ℚ)) :=
  if 0 < ((groupSum df x y).map Prod.snd).sum then
    some (compositionPercents df x y, topThree (compositionPercents df x y))
  else none

inductive ChartType where
  | barGrouped
  | lineTrend
  | histDist
  | pieComp
deriving DecidableEq, Repr

inductive ChartData where
  | bar (d : List (Cell × ℚ))
  | line (d : List (Cell × Cell))
  | hist (d : List (Cell × Nat))
  | pie (d : Option (List (Cell × ℚ) × List (Cell × ℚ)))
deriving DecidableEq, Repr

/-- The conditional chart rendering of app.py lines 186-229. -/
def renderChart (df : DataFrame) (t : ChartType) (x y : String) : ChartData :=
  match t with
  | .barGrouped => .bar (groupSum df x y)
  | .lineTrend => .line (df.rows.map (fun r => (getCell df r x, getCell df r y)))
  | .histDist => .hist (valueCounts df y)
  | .pieComp => .pie (pieResult df x y)

def colNames (df : DataFrame) : List String := df.cols.map Prod.fst

/-- df[c].sum() (pandas sum skips missing values). -/
def colSum (df : DataFrame) (c : String) : ℚ :=
  ((colValues df c).map (fun v => (v.num?).getD 0)).sum

/-- df[c].mean() — missing when the column has no numeric values. -/
def colMeanCell (df : DataFrame) (c : String) : Cell :=
  let l := ratsOf df c
  if l.length = 0 then Cell.nan else Cell.rat (l.sum / (l.length : ℚ))

/-- (df['Price'] * df['Units_Sold']).sum() of app.py line 245. -/
def rowProductSum (df : DataFrame) (a b : String) : ℚ :=
  (df.rows.map (fun r =>
    match (getCell df r a).num?, (getCell df r b).num? with
    | some x, some y => x * y
    | _, _ => 0)).sum

/-- The col1 metric of app.py lines 236-241. -/
def col1Metric (df : DataFrame) : Option (String × Cell) :=
  if "Units_Sold" ∈ colNames df then
    some ("Total Units Sold in Filter", Cell.rat (colSum df "Units_Sold"))
  else if "Performance_Score" ∈ colNames df then
    some ("Average Performance Score", colMeanCell df "Performance_Score")
  else none

/-- The col2 metric of app.py lines 244-249. -/
def col2Metric (df : DataFrame) : Option (String × Cell) :=
  if "Price" ∈ colNames df ∧ "Units_Sold" ∈ colNames df then
    some ("Estimated Total Sales Value", Cell.rat (rowProductSum df "Price" "Units_Sold"))
  else if "Years_of_Service" ∈ colNames df then
    some ("Average Years of Service", colMeanCell df "Years_of_Service")
  else none

structure Summary where
  chart : ChartData
  metric1 : Option (String × Cell)
  metric2 : Option (String × Cell)
deriving DecidableEq, Repr

/-- The visual-summary block of app.py lines 152-249: computed only
when the filtered table is non-empty and numeric columns exist. -/
def visualSummary (dfF : DataFrame) (t : ChartType) (x y : String) :
    Option Summary :=
  if 0 < dfF.rows.length ∧ numericCols dfF ≠ [] then
    some ⟨renderChart dfF t x y, col1Metric dfF, col2Metric dfF⟩
  else none

/-- One full run of the dashboard body (app.py lines 88-249) for a
loaded table and chosen widget values: the raw-data preview shown at
line 92, the filtered result shown at line 146, and the optional
visual summary. -/
def dashboard (df : DataFrame) (catSel : String) (allowed : List Cell)
    (numSel : String) (minRange : Cell) (t : ChartType) (x y : String) :
    DataFrame × DataFrame × Option Summary :=
  let dfF := runFilters df catSel allowed numSel minRange
  (df, dfF, visualSummary dfF t x y)

/-- The upload branch of app.py lines 75-81: on a parse error the
exception is caught, an error message is flagged, and df keeps its
initial empty value from line 52. -/
def loadUploaded (input : String) : DataFrame × Bool :=
  match parseCSV input with
  | .ok d => (d, false)
  | .error _ => (DataFrame.empty, true)

/-- Does some data row have more fields than the expected width (the
maximum of the header width and the first data row's width)?  This is
the exact condition under which parseCSV reports a tokenizer error. -/
def hasOverwideRow (input : String) : Bool :=
  match nonBlankLines input with
  | [] => false
  | headerLine :: dataLines =>
    match dataLines with
    | [] => false
    | d0 :: _ =>
      dataLines.any (fun l =>
        max (fieldsOf headerLine).length (fieldsOf d0).length < (fieldsOf l).length)

/-- Number of fields in the header line. -/
def headerFieldCount (input : String) : Nat :=
  match nonBlankLines input with
  | [] => 0
  | headerLine :: _ => (fieldsOf headerLine).length

/-- Number of fields in each data line. -/
def rowFieldCounts (input : String) : List Nat :=
  match nonBlankLines input with
  | [] => []
  | _ :: dataLines => dataLines.map (fun l => (fieldsOf l).length)

section Lemmas

theorem beqCell_refl (c : Cell) : beqCell c c = true := by
  cases c <;> simp [beqCell, Cell.num?]

theorem elemB_dedupAux (v : Cell) (l : List Cell) :
    ∀ seen, v ∈ l → elemB v seen = true ∨ elemB v (dedupAux seen l) = true := by
  induction l with
  | nil => intro seen h; cases h
  | cons c cs ih =>
    intro seen hv
    by_cases hc : elemB c seen = true
    · rw [dedupAux, if_pos hc]
      rcases List.mem_cons.mp hv with rfl | hv'
      · exact Or.inl hc
      · exact ih seen hv'
    · rw [dedupAux, if_neg hc]
      rcases List.mem_cons.mp hv with rfl | hv'
      · right
        simp [elemB, List.any_cons, beqCell_refl]
      · rcases ih (c :: seen) hv' with h | h
        · simp only [elemB, List.any_cons, Bool.or_eq_true] at h
          rcases h with h | h
          · right
            simp [elemB, List.any_cons, h]
          · exact Or.inl h
        · right
          simp [elemB, List.any_cons] at h ⊢
          exact Or.inr h

theorem elemB_distinct {v : Cell} {l : List Cell} (h : v ∈ l) :
    elemB v (cellDistinct l) = true := by
  rcases elemB_dedupAux v l [] h with h' | h'
  · simp [elemB] at h'
  · exact h'

theorem minRat?_le_of_mem {q : ℚ} {l : List ℚ} (h : q ∈ l) :
    ∃ m, minRat? l = some m ∧ m ≤ q := by
  induction l with
  | nil => cases h
  | cons a as ih =>
    rcases List.mem_cons.mp h with rfl | h'
    · cases has : minRat? as with
      | none => exact ⟨q, by simp [minRat?, has], le_refl q⟩
      | some m => exact ⟨min q m, by simp [minRat?, has], min_le_left q m⟩
    · rcases ih h' with ⟨m, hm, hle⟩
      exact ⟨min a m, by simp [minRat?, hm], le_trans (min_le_right a m) hle⟩

theorem sum_map_snd_mul (l : List (Cell × ℚ)) (c : ℚ) :
    (l.map (fun p => p.2 * c)).sum = (l.map Prod.snd).sum * c := by
  induction l with
  | nil => simp
  | cons a as ih => simp [ih, add_mul]

theorem fst_nodup_mem_unique {l : List (String × Dtype)} {c : String}
    {a b : Dtype} (hnd : (l.map Prod.fst).Nodup)
    (ha : (c, a) ∈ l) (hb : (c, b) ∈ l) : a = b := by
  induction l with
  | nil => cases ha
  | cons p ps ih =>
    rw [List.map_cons, List.nodup_cons] at hnd
    rcases List.mem_cons.mp ha with ha' | ha' <;>
      rcases List.mem_cons.mp hb with hb' | hb'
    · have hab : (c, a) = ((c, b) : String × Dtype) := ha'.trans hb'.symm
      exact (Prod.ext_iff.mp hab).2
    · exfalso
      apply hnd.1
      rw [← ha']
      exact List.mem_map.mpr ⟨(c, b), hb', rfl⟩
    · exfalso
      apply hnd.1
      rw [← hb']
      exact List.mem_map.mpr ⟨(c, a), ha', rfl⟩
    · exact ih hnd.2 ha' hb'

theorem numericCols_filterCat (df : DataFrame) (catSel : String)
    (allowed : List Cell) :
    numericCols (dfFilteredCategory df catSel allowed) = numericCols df := rfl

theorem getCell_filterCat (df : DataFrame) (catSel : String)
    (allowed : List Cell) (r : Row) (c : String) :
    getCell (dfFilteredCategory df catSel allowed) r c = getCell df r c := rfl

end Lemmas

/-- C1 counterexample: the claim expects exactly 3 rows after filtering
the products sample's Category column to the set containing only
Electronics, but the filter yields 4 rows. -/
theorem C1_not_three_rows :
    ¬ (dfFilteredCategory salesDF "Category" [Cell.str "Electronics"]).rows.length = 3 := by
  decide

/-- C1 (amended): loading the embedded products sample yields a 10-row
table; filtering its Category column to the allowed set containing
Electronics yields exactly 4 rows, the products Laptop, Monitor,
Webcam and Speaker with Product_ID values 1, 3, 5 and 9; and the
grouped sum of Units_Sold by Category over the unfiltered table
assigns the Electronics group the value 335. -/
theorem C1_sales_scenario :
    salesDF.rows.length = 10
    ∧ (dfFilteredCategory salesDF "Category" [Cell.str "Electronics"]).rows.length = 4
    ∧ colValues (dfFilteredCategory salesDF "Category" [Cell.str "Electronics"])
        "Product_Name"
        = [Cell.str "Laptop", Cell.str "Monitor", Cell.str "Webcam", Cell.str "Speaker"]
    ∧ colValues (dfFilteredCategory salesDF "Category" [Cell.str "Electronics"])
        "Product_ID"
        = [Cell.int 1, Cell.int 3, Cell.int 5, Cell.int 9]
    ∧ List.lookup (Cell.str "Electronics") (groupSum salesDF "Category" "Units_Sold")
        = some 335 := by
  refine ⟨by decide, by decide, by decide, by decide, ?_⟩
  with_unfolding_all decide

/-- C3 counterexample: in the embedded employees sample every data row
has 7 fields while the header row has 6, yet loading succeeds with no
error and a non-empty 8-row table (pandas turns the surplus leftmost
column into the index instead of failing). -/
theorem C3_team_sample_loads :
    headerFieldCount TEAM_DATA_CSV = 6
    ∧ rowFieldCounts TEAM_DATA_CSV = List.replicate 8 7
    ∧ (parseCSV TEAM_DATA_CSV).isOk = true
    ∧ (loadUploaded TEAM_DATA_CSV).2 = false
    ∧ (loadUploaded TEAM_DATA_CSV).1.rows.length = 8 := by
  refine ⟨by decide, by decide, by decide, by decide, ?_⟩
  decide

/-- C3 (amended): loading fails exactly when some data row has more
fields than the expected width (the maximum of the header row's and
the first data row's field counts); on such inputs the upload
boundary catches the error, reports it, and the resulting table is
the empty table — no exception escapes.  Rows merely differing from
the header's field count (fewer fields, or a uniform surplus that
becomes an implicit index) load successfully. -/
theorem C3_load_failure (input : String) (h : hasOverwideRow input = true) :
    (parseCSV input).isOk = false
    ∧ loadUploaded input = (DataFrame.empty, true) := by
  have he : parseCSV input
      = .error "ParserError: a row has more fields than expected" := by
    unfold hasOverwideRow at h
    unfold parseCSV
    cases hl : nonBlankLines input with
    | nil =>
      rw [hl] at h
      exact absurd h (by simp)
    | cons headerLine dataLines =>
      rw [hl] at h
      cases dataLines with
      | nil => exact absurd h (by simp)
      | cons d0 ds =>
        dsimp only
        rw [if_pos h]
  constructor
  · rw [he]
    rfl
  · unfold loadUploaded
    rw [he]

/-- C3 witness: a concrete input whose third row is wider than the
first two; it fails to parse and the caught failure leaves the empty
table with the error flag set. -/
theorem C3_load_failure_witness :
    (parseCSV "a,b\n1,2\n1,2,3").isOk = false
    ∧ loadUploaded "a,b\n1,2\n1,2,3" = (DataFrame.empty, true) :=
  C3_load_failure "a,b\n1,2\n1,2,3" (by decide)

/-- C5 counterexample: after filtering the employees sample's
Department column to Engineering, the Employee_ID column of the four
resulting rows holds the surnames, not the T-codes: the names contain
commas, so pandas shifts the fields and the T-codes become the index. -/
theorem C5_employee_id_mismatch :
    ¬ colValues (dfFilteredCategory teamDF "Department" [Cell.str "Engineering"])
        "Employee_ID"
      = [Cell.str "T101", Cell.str "T401", Cell.str "T504", Cell.str "T806"] := by
  decide

/-- C5 (amended): loading the embedded employees sample and filtering
the Department column to the allowed set containing Engineering
yields exactly 4 rows, whose index labels are T101, T401, T504 and
T806 (the Employee_ID column instead holds the surnames Smith,
Johnson, Williams and Brown, because each Full_Name value contains a
comma and the ID field becomes the implicit index), and the mean of
Performance_Score over that 4-row subset equals 85.25. -/
theorem C5_team_scenario :
    teamDF.rows.length = 8
    ∧ (dfFilteredCategory teamDF "Department" [Cell.str "Engineering"]).rows.length = 4
    ∧ (dfFilteredCategory teamDF "Department" [Cell.str "Engineering"]).rows.map Row.idx
        = [Cell.str "T101", Cell.str "T401", Cell.str "T504", Cell.str "T806"]
    ∧ colValues (dfFilteredCategory teamDF "Department" [Cell.str "Engineering"])
        "Employee_ID"
        = [Cell.str "Smith", Cell.str "Johnson", Cell.str "Williams", Cell.str "Brown"]
    ∧ colMeanCell (dfFilteredCategory teamDF "Department" [Cell.str "Engineering"])
        "Performance_Score"
        = Cell.rat (341 / 4) := by
  refine ⟨by decide, by decide, by decide, by decide, ?_⟩
  with_unfolding_all decide

/-- C2: for every table and filter parameters the filter engine's
output has at most as many rows as its input, every output row
satisfies both active predicates (categorical value in the allowed
set, numeric value at least the lower bound), and with default
parameters (allowed set = the categorical column's distinct values,
bound = the slider default, the numeric column's minimum over the
categorical-filtered table) the output equals the input.  The table
is well-formed in the sense of the spec's data model: the selected
numeric column holds numeric values. -/
theorem C2_filter_engine (df : DataFrame) (catSel numSel : String)
    (allowed : List Cell) (minRange : Cell)
    (hcat : catSel ∈ categoricalCols df)
    (hnum : numSel ∈ numericCols df)
    (hwf : ∀ v ∈ colValues df numSel, (Cell.num? v).isSome = true) :
    (runFilters df catSel allowed numSel minRange).rows.length ≤ df.rows.length
    ∧ (∀ r ∈ (runFilters df catSel allowed numSel minRange).rows,
        elemB (getCell df r catSel) allowed = true
        ∧ cellGe (getCell df r numSel) minRange = true)
    ∧ (allowed = uniqueVals df catSel →
        minRange = sliderDefault (dfFilteredCategory df catSel allowed) numSel →
        runFilters df catSel allowed numSel minRange = df) := by
  have hcatne : categoricalCols df ≠ [] := List.ne_nil_of_mem hcat
  have hnumne : numericCols (dfFilteredCategory df catSel allowed) ≠ [] := by
    rw [numericCols_filterCat]
    exact List.ne_nil_of_mem hnum
  have hrun : runFilters df catSel allowed numSel minRange
      = dfFinalNumeric (dfFilteredCategory df catSel allowed) numSel minRange := by
    unfold runFilters dfNumericStage dfCatStage
    rw [if_neg hcatne, if_neg hnumne]
  refine ⟨?_, ?_, ?_⟩
  · rw [hrun]
    exact le_trans (List.length_filter_le _ _) (List.length_filter_le _ _)
  · intro r hr
    rw [hrun] at hr
    have h2 := List.mem_filter.mp hr
    have h1 := List.mem_filter.mp h2.1
    exact ⟨h1.2, h2.2⟩
  · intro ha hm
    have hdfc : dfFilteredCategory df catSel allowed = df := by
      subst ha
      cases df with
      | mk cols rows =>
        unfold dfFilteredCategory
        congr 1
        apply List.filter_eq_self.mpr
        intro r hr
        exact elemB_distinct (List.mem_map_of_mem _ hr)
    rw [hdfc] at hm
    rw [hrun, hdfc]
    cases df with
    | mk cols rows =>
      unfold dfFinalNumeric
      congr 1
      apply List.filter_eq_self.mpr
      intro r hr
      have hv := hwf (getCell ⟨cols, rows⟩ r numSel) (List.mem_map_of_mem _ hr)
      rcases Option.isSome_iff_exists.mp hv with ⟨q, hq⟩
      have hqmem : q ∈ ratsOf ⟨cols, rows⟩ numSel :=
        List.mem_filterMap.mpr
          ⟨getCell ⟨cols, rows⟩ r numSel, List.mem_map_of_mem _ hr, hq⟩
      rcases minRat?_le_of_mem hqmem with ⟨m, hsome, hle⟩
      have hmin : minRange = Cell.rat m := by
        rw [hm]
        unfold sliderDefault sliderBounds colMinCell
        rw [hsome]
      rw [hmin]
      unfold cellGe
      rw [hq]
      simp [Cell.num?, hle]

/-- C2 witness: the filter engine applied to the products sample with
the Electronics filter and a bound of 100 returns at most 10 rows. -/
theorem C2_filter_engine_witness :
    (runFilters salesDF "Category" [Cell.str "Electronics"] "Units_Sold"
      (Cell.int 100)).rows.length ≤ salesDF.rows.length :=
  (C2_filter_engine salesDF "Category" "Units_Sold" [Cell.str "Electronics"]
    (Cell.int 100) (by decide) (by decide) (by decide)).1

/-- C4: for every non-empty table with a categorical column, emptying
the allowed-values set makes the pipeline yield a table with zero
rows, and the downstream visual-summary stage is skipped (returns no
summary) rather than entering an error state. -/
theorem C4_empty_allowed_zero_rows (df : DataFrame) (catSel numSel : String)
    (minRange : Cell) (t : ChartType) (x y : String)
    (hrows : df.rows ≠ []) (hcat : categoricalCols df ≠ []) :
    (runFilters df catSel [] numSel minRange).rows = []
    ∧ visualSummary (runFilters df catSel [] numSel minRange) t x y = none := by
  have h1 : (dfFilteredCategory df catSel []).rows = [] := by
    unfold dfFilteredCategory
    simp [elemB]
  have hrun : (runFilters df catSel [] numSel minRange).rows = [] := by
    unfold runFilters dfNumericStage dfCatStage
    rw [if_neg hcat]
    split
    · exact h1
    · unfold dfFinalNumeric
      simp [h1]
  have hc : ¬(0 < (runFilters df catSel [] numSel minRange).rows.length
      ∧ numericCols (runFilters df catSel [] numSel minRange) ≠ []) := by
    rw [not_and]
    intro hlen
    rw [hrun] at hlen
    simp at hlen
  refine ⟨hrun, ?_⟩
  unfold visualSummary
  rw [if_neg hc]

/-- C4 witness: emptying the allowed set on the products sample yields
zero rows and no visual summary. -/
theorem C4_empty_allowed_zero_rows_witness :
    (runFilters salesDF "Category" [] "Units_Sold" (Cell.int 0)).rows = []
    ∧ visualSummary (runFilters salesDF "Category" [] "Units_Sold" (Cell.int 0))
        ChartType.barGrouped "Category" "Units_Sold" = none :=
  C4_empty_allowed_zero_rows salesDF "Category" "Units_Sold" (Cell.int 0)
    ChartType.barGrouped "Category" "Units_Sold" (by decide) (by decide)

/-- C6: for the percentage-composition chart, when the grand total of
the grouped sums is zero no composition is computed (the warning
branch is taken); when it is positive the emitted percentages are
each group's sum divided by the grand total times 100, they sum to
exactly 100, and the exposed top three groups are in descending order
of percentage and dominate every remaining group. -/
theorem C6_percentage_composition (df : DataFrame) (x y : String) :
    (((groupSum df x y).map Prod.snd).sum = 0 → pieResult df x y = none)
    ∧ (0 < ((groupSum df x y).map Prod.snd).sum →
        pieResult df x y
          = some (compositionPercents df x y, topThree (compositionPercents df x y))
        ∧ ((compositionPercents df x y).map Prod.snd).sum = 100
        ∧ List.Sorted pairGe (topThree (compositionPercents df x y))
        ∧ ∀ q ∈ (List.insertionSort pairGe (compositionPercents df x y)).drop 3,
            ∀ p ∈ topThree (compositionPercents df x y), q.2 ≤ p.2) := by
  constructor
  · intro h0
    have hne : ¬(0 < ((groupSum df x y).map Prod.snd).sum) := by
      rw [h0]
      exact lt_irrefl 0
    unfold pieResult
    rw [if_neg hne]
  · intro hpos
    refine ⟨?_, ?_, ?_, ?_⟩
    · unfold pieResult
      rw [if_pos hpos]
    · unfold compositionPercents
      rw [List.map_map]
      have hmap : (Prod.snd ∘ fun p : Cell × ℚ =>
          (p.1, p.2 / ((groupSum df x y).map Prod.snd).sum * 100))
          = fun p : Cell × ℚ =>
            p.2 * (100 / ((groupSum df x y).map Prod.snd).sum) := by
        funext p
        simp only [Function.comp]
        ring
      rw [hmap, sum_map_snd_mul, mul_comm]
      exact div_mul_cancel₀ 100 (ne_of_gt hpos)
    · exact List.Pairwise.sublist (List.take_sublist 3 _)
        (List.sorted_insertionSort pairGe _)
    · intro q hq p hp
      have hs := List.sorted_insertionSort pairGe (compositionPercents df x y)
      rw [← List.take_append_drop 3
        (List.insertionSort pairGe (compositionPercents df x y))] at hs
      exact (List.pairwise_append.mp hs).2.2 p hp q hq

/-- C6 witness: over the products sample the composition percentages
of Units_Sold by Category sum to exactly 100. -/
theorem C6_percentage_composition_witness :
    ((compositionPercents salesDF "Category" "Units_Sold").map Prod.snd).sum = 100 :=
  ((C6_percentage_composition salesDF "Category" "Units_Sold").2
    (by with_unfolding_all decide)).2.1

/-- C7: when the numeric set is non-empty, the slider bounds are the
minimum and maximum of the selected column over the
categorical-filtered table, the default lower bound is that minimum,
and the numeric filter keeps exactly the rows whose value is at least
the chosen bound (inclusive comparison, no upper bound applied).  The
concrete conjuncts show the bounds are taken over the filtered table,
not the original: filtering the products sample to Electronics
changes the Units_Sold bounds from (50, 500) to (50, 120). -/
theorem C7_numeric_filter (df : DataFrame) (catSel : String)
    (allowed : List Cell) (numSel : String) (minRange : Cell)
    (hnum : numSel ∈ numericCols (dfFilteredCategory df catSel allowed)) :
    sliderBounds (dfFilteredCategory df catSel allowed) numSel
      = (colMinCell (dfFilteredCategory df catSel allowed) numSel,
         colMaxCell (dfFilteredCategory df catSel allowed) numSel)
    ∧ sliderDefault (dfFilteredCategory df catSel allowed) numSel
      = colMinCell (dfFilteredCategory df catSel allowed) numSel
    ∧ (∀ r ∈ (dfFilteredCategory df catSel allowed).rows,
        r ∈ (dfFinalNumeric (dfFilteredCategory df catSel allowed) numSel
          minRange).rows
        ↔ cellGe (getCell df r numSel) minRange = true)
    ∧ sliderBounds (dfFilteredCategory salesDF "Category" [Cell.str "Electronics"])
        "Units_Sold" ≠ sliderBounds salesDF "Units_Sold"
    ∧ sliderBounds (dfFilteredCategory salesDF "Category" [Cell.str "Electronics"])
        "Units_Sold" = (Cell.rat 50, Cell.rat 120)
    ∧ sliderBounds salesDF "Units_Sold" = (Cell.rat 50, Cell.rat 500) := by
  refine ⟨rfl, rfl, ?_, by with_unfolding_all decide, by with_unfolding_all decide,
    by with_unfolding_all decide⟩
  intro r hr
  constructor
  · intro hmem
    exact (List.mem_filter.mp hmem).2
  · intro hge
    exact List.mem_filter.mpr ⟨hr, hge⟩

/-- C7 witness: the slider bounds over the Electronics-filtered
products sample are that filtered table's column minimum and maximum. -/
theorem C7_numeric_filter_witness :
    sliderBounds (dfFilteredCategory salesDF "Category" [Cell.str "Electronics"])
      "Units_Sold"
    = (colMinCell (dfFilteredCategory salesDF "Category" [Cell.str "Electronics"])
        "Units_Sold",
       colMaxCell (dfFilteredCategory salesDF "Category" [Cell.str "Electronics"])
        "Units_Sold") :=
  (C7_numeric_filter salesDF "Category" [Cell.str "Electronics"] "Units_Sold"
    (Cell.int 100) (by decide)).1

/-- C8: the column classifier partitions the loaded table's column
names: a column is categorical iff its inferred dtype is text or
boolean, numeric iff integer or floating-point, and every column lies
in exactly one of the two sets.  Column names of a loaded table are
distinct (pandas mangles duplicate headers). -/
theorem C8_classifier_partition (df : DataFrame) (c : String)
    (hnd : (colNames df).Nodup) (hmem : c ∈ colNames df) :
    (c ∈ categoricalCols df
      ↔ ∃ dt, (c, dt) ∈ df.cols ∧ (dt = Dtype.object ∨ dt = Dtype.boolDt))
    ∧ (c ∈ numericCols df
      ↔ ∃ dt, (c, dt) ∈ df.cols ∧ (dt = Dtype.int64 ∨ dt = Dtype.float64))
    ∧ ((c ∈ categoricalCols df ∧ c ∉ numericCols df)
      ∨ (c ∈ numericCols df ∧ c ∉ categoricalCols df)) := by
  have hcases : ∀ dt : Dtype,
      (dt.isCategorical = true ↔ (dt = Dtype.object ∨ dt = Dtype.boolDt))
      ∧ (dt.isNumericDt = true ↔ (dt = Dtype.int64 ∨ dt = Dtype.float64)) := by
    intro dt
    cases dt <;> simp [Dtype.isCategorical, Dtype.isNumericDt]
  have hcat : c ∈ categoricalCols df
      ↔ ∃ dt, (c, dt) ∈ df.cols ∧ dt.isCategorical = true := by
    constructor
    · intro h
      rcases List.mem_map.mp h with ⟨⟨p1, p2⟩, hp, hpc⟩
      rcases List.mem_filter.mp hp with ⟨hpm, hpP⟩
      cases hpc
      exact ⟨p2, hpm, hpP⟩
    · rintro ⟨dt, hm, hP⟩
      exact List.mem_map.mpr ⟨(c, dt), List.mem_filter.mpr ⟨hm, hP⟩, rfl⟩
  have hnum : c ∈ numericCols df
      ↔ ∃ dt, (c, dt) ∈ df.cols ∧ dt.isNumericDt = true := by
    constructor
    · intro h
      rcases List.mem_map.mp h with ⟨⟨p1, p2⟩, hp, hpc⟩
      rcases List.mem_filter.mp hp with ⟨hpm, hpP⟩
      cases hpc
      exact ⟨p2, hpm, hpP⟩
    · rintro ⟨dt, hm, hP⟩
      exact List.mem_map.mpr ⟨(c, dt), List.mem_filter.mpr ⟨hm, hP⟩, rfl⟩
  refine ⟨hcat.trans (exists_congr (fun dt => and_congr_right
      (fun _ => (hcases dt).1))),
    hnum.trans (exists_congr (fun dt => and_congr_right
      (fun _ => (hcases dt).2))), ?_⟩
  rcases List.mem_map.mp hmem with ⟨⟨c1, dt0⟩, hp0, hc1⟩
  cases hc1
  have huniq : ∀ dt', (c1, dt') ∈ df.cols → dt' = dt0 := fun dt' h' =>
    fst_nodup_mem_unique hnd h' hp0
  by_cases hcd : dt0.isCategorical = true
  · left
    refine ⟨hcat.mpr ⟨dt0, hp0, hcd⟩, ?_⟩
    intro hn
    rcases hnum.mp hn with ⟨dt', hdt', hP'⟩
    rw [huniq dt' hdt'] at hP'
    cases dt0 <;> simp_all [Dtype.isCategorical, Dtype.isNumericDt]
  · right
    have hnum0 : dt0.isNumericDt = true := by
      cases dt0 <;> simp_all [Dtype.isCategorical, Dtype.isNumericDt]
    refine ⟨hnum.mpr ⟨dt0, hp0, hnum0⟩, ?_⟩
    intro hcm
    rcases hcat.mp hcm with ⟨dt', hdt', hP'⟩
    rw [huniq dt' hdt'] at hP'
    exact hcd hP'

/-- C8 witness: Category is a categorical and not a numeric column of
the loaded products sample. -/
theorem C8_classifier_partition_witness :
    ("Category" ∈ categoricalCols salesDF ∧ "Category" ∉ numericCols salesDF)
    ∨ ("Category" ∈ numericCols salesDF ∧ "Category" ∉ categoricalCols salesDF) :=
  (C8_classifier_partition salesDF "Category" (by decide) (by decide)).2.2

/-- C9: the scalar metrics are conditional on column presence with
else-if precedence and are silently skipped when a required column is
absent: Units_Sold present yields its sum (suppressing the
Performance_Score mean), else Performance_Score present yields its
mean, else no first metric; Price and Units_Sold both present yield
the row-wise product sum (suppressing the Years_of_Service mean),
else Years_of_Service present yields its mean, else no second metric. -/
theorem C9_conditional_metrics (df : DataFrame) :
    ("Units_Sold" ∈ colNames df →
      col1Metric df
        = some ("Total Units Sold in Filter", Cell.rat (colSum df "Units_Sold")))
    ∧ ("Units_Sold" ∉ colNames df → "Performance_Score" ∈ colNames df →
      col1Metric df
        = some ("Average Performance Score", colMeanCell df "Performance_Score"))
    ∧ ("Units_Sold" ∉ colNames df → "Performance_Score" ∉ colNames df →
      col1Metric df = none)
    ∧ ("Price" ∈ colNames df → "Units_Sold" ∈ colNames df →
      col2Metric df = some ("Estimated Total Sales Value",
        Cell.rat (rowProductSum df "Price" "Units_Sold")))
    ∧ (¬("Price" ∈ colNames df ∧ "Units_Sold" ∈ colNames df) →
      "Years_of_Service" ∈ colNames df →
      col2Metric df
        = some ("Average Years of Service", colMeanCell df "Years_of_Service"))
    ∧ (¬("Price" ∈ colNames df ∧ "Units_Sold" ∈ colNames df) →
      "Years_of_Service" ∉ colNames df → col2Metric df = none) := by
  refine ⟨?_, ?_, ?_, ?_, ?_, ?_⟩
  · intro h
    unfold col1Metric
    rw [if_pos h]
  · intro h1 h2
    unfold col1Metric
    rw [if_neg h1, if_pos h2]
  · intro h1 h2
    unfold col1Metric
    rw [if_neg h1, if_neg h2]
  · intro h1 h2
    unfold col2Metric
    rw [if_pos ⟨h1, h2⟩]
  · intro h1 h2
    unfold col2Metric
    rw [if_neg h1, if_pos h2]
  · intro h1 h2
    unfold col2Metric
    rw [if_neg h1, if_neg h2]

/-- C9 witness: the products sample shows the Units_Sold sum, the
employees sample shows the Performance_Score mean and the
Years_of_Service mean. -/
theorem C9_conditional_metrics_witness :
    col1Metric salesDF
      = some ("Total Units Sold in Filter", Cell.rat (colSum salesDF "Units_Sold"))
    ∧ col1Metric teamDF
      = some ("Average Performance Score", colMeanCell teamDF "Performance_Score")
    ∧ col2Metric teamDF
      = some ("Average Years of Service", colMeanCell teamDF "Years_of_Service") :=
  ⟨(C9_conditional_metrics salesDF).1 (by decide),
   (C9_conditional_metrics teamDF).2.1 (by decide) (by decide),
   (C9_conditional_metrics teamDF).2.2.2.2.1 (by decide) (by decide)⟩

/-- C10: filtering never mutates the loaded table: the raw-data
preview always shows the loaded table itself, whatever the filter
parameters, and the filtered result is a sub-sequence of the loaded
table's rows (original values, original order). -/
theorem C10_preview_unfiltered (df : DataFrame) (catSel : String)
    (allowed : List Cell) (numSel : String) (minRange : Cell)
    (t : ChartType) (x y : String) :
    (dashboard df catSel allowed numSel minRange t x y).1 = df
    ∧ (dashboard df catSel allowed numSel minRange t x y).2.1.rows.Sublist
        df.rows := by
  refine ⟨rfl, ?_⟩
  have hc : (dfCatStage df catSel allowed).rows.Sublist df.rows := by
    unfold dfCatStage
    split
    · exact List.Sublist.refl _
    · exact List.filter_sublist _
  show (runFilters df catSel allowed numSel minRange).rows.Sublist df.rows
  unfold runFilters dfNumericStage
  split
  · exact hc
  · exact List.Sublist.trans (List.filter_sublist _) hc

end SalesDash
